import Mathlib

/-!
Shallow embedding of the SeriousClick auto-clicker engine (src/main.rs).

Time is abstracted: an `Instant` is a `Nat` timestamp.  The randomness of
`rand::thread_rng().gen_range(lo..=hi)` is abstracted by an oracle value
`r : Nat` that the draw maps into the inclusive range; an empty range
(`lo > hi`) panics, modelled as `none`.  A `Vec<u64>` index out of bounds
panics, modelled as `none` via `List.get?`.  The `Mutex<ClickerState>` is
modelled by explicit state passing: every lock-protected critical section
of the source becomes one atomic function on `ClickerState`.
-/

/-- Click mode enum (src/main.rs lines 17-23). -/
inductive ClickMode where
  | FixedInterval
  | RandomInterval
  | Continuous
  | Pattern
deriving DecidableEq, Repr

/-- Mouse button enum (src/main.rs lines 41-46). -/
inductive MouseButtonType where
  | Left
  | Right
  | Middle
deriving DecidableEq, Repr

/-- Persisted configuration record (src/main.rs lines 71-80). -/
structure ClickerConfig where
  name : String
  click_mode : ClickMode
  mouse_button : MouseButtonType
  fixed_interval_ms : Nat
  min_random_interval_ms : Nat
  max_random_interval_ms : Nat
  pattern_intervals : List Nat
deriving DecidableEq, Repr

/-- `impl Default for ClickerConfig` (src/main.rs lines 82-94). -/
def ClickerConfig.defaultConfig : ClickerConfig :=
  { name := "默认配置"
    click_mode := ClickMode.FixedInterval
    mouse_button := MouseButtonType.Left
    fixed_interval_ms := 100
    min_random_interval_ms := 50
    max_random_interval_ms := 200
    pattern_intervals := [100, 200, 300] }

/-- Shared runtime state guarded by the mutex (src/main.rs lines 97-108). -/
structure ClickerState where
  is_running : Bool
  click_mode : ClickMode
  mouse_button : MouseButtonType
  fixed_interval_ms : Nat
  min_random_interval_ms : Nat
  max_random_interval_ms : Nat
  pattern_intervals : List Nat
  click_count : Nat
  start_time : Option Nat
  last_click_time : Option Nat
deriving DecidableEq, Repr

/-- `impl Default for ClickerState` (src/main.rs lines 110-125). -/
def ClickerState.defaultState : ClickerState :=
  { is_running := false
    click_mode := ClickMode.FixedInterval
    mouse_button := MouseButtonType.Left
    fixed_interval_ms := 100
    min_random_interval_ms := 50
    max_random_interval_ms := 200
    pattern_intervals := [100, 200, 300]
    click_count := 0
    start_time := none
    last_click_time := none }

/-- `impl From<&ClickerConfig> for ClickerState` (src/main.rs lines 127-142). -/
def ClickerState.fromConfig (config : ClickerConfig) : ClickerState :=
  { is_running := false
    click_mode := config.click_mode
    mouse_button := config.mouse_button
    fixed_interval_ms := config.fixed_interval_ms
    min_random_interval_ms := config.min_random_interval_ms
    max_random_interval_ms := config.max_random_interval_ms
    pattern_intervals := config.pattern_intervals
    click_count := 0
    start_time := none
    last_click_time := none }

/-- Model of `rand::Rng::gen_range(lo..=hi)` on `u64`: panics (`none`) when
the inclusive range is empty (`lo > hi`), otherwise lands on a value of
`[lo, hi]` determined by the oracle `r`. -/
def gen_range_inclusive (lo hi r : Nat) : Option Nat :=
  if lo ≤ hi then some (lo + r % (hi - lo + 1)) else none

/-- Interval Policy: the `delay` match inside the worker loop
(src/main.rs lines 279-293), computed under the lock from the snapshot.
`none` models a panic: either `gen_range` on an empty range or the
`pattern_intervals[pattern_index]` index being out of bounds. -/
def computeDelay (s : ClickerState) (pattern_index r : Nat) : Option Nat :=
  match s.click_mode with
  | ClickMode.FixedInterval => some s.fixed_interval_ms
  | ClickMode.RandomInterval =>
      gen_range_inclusive s.min_random_interval_ms s.max_random_interval_ms r
  | ClickMode.Continuous => some 1
  | ClickMode.Pattern =>
      if s.pattern_intervals.isEmpty then some 100
      else s.pattern_intervals.get? pattern_index

/-- Outcome of one pass of the worker loop body (src/main.rs lines 269-317). -/
inductive IterResult where
  | exited
  | panicked
  | clicked (button : MouseButtonType) (s : ClickerState)
      (pattern_index : Nat) (delay : Nat)
deriving DecidableEq, Repr

/-- One iteration of the spawned click worker's loop (src/main.rs lines
269-317): under the lock, check `is_running` (break with no mutation when
false), snapshot button/mode/pattern and compute the delay; then emit the
click, and under the lock again increment `click_count` and set
`last_click_time := now`; finally advance the local `pattern_index` when in
Pattern mode with a non-empty snapshot, and sleep `delay`.  `t` is the
timestamp taken for `last_click_time`; `r` is the randomness oracle. -/
def workerIteration (s : ClickerState) (pattern_index r t : Nat) : IterResult :=
  if s.is_running = false then IterResult.exited
  else
    match computeDelay s pattern_index r with
    | none => IterResult.panicked
    | some delay =>
        let button := s.mouse_button
        let mode := s.click_mode
        let pattern := s.pattern_intervals
        let s1 := { s with click_count := s.click_count + 1, last_click_time := some t }
        let next_index :=
          if mode = ClickMode.Pattern ∧ pattern ≠ [] then
            (pattern_index + 1) % pattern.length
          else pattern_index
        IterResult.clicked button s1 next_index delay

/-- Run the worker loop for a list of per-iteration oracles `(r, t)`,
collecting the computed delays in order.  The run stops when the worker
observes `is_running = false` (clean exit) or panics, or when the oracle
list is exhausted. -/
def runWorker (s : ClickerState) (pattern_index : Nat) :
    List (Nat × Nat) → ClickerState × Nat × List Nat
  | [] => (s, pattern_index, [])
  | (r, t) :: rest =>
      match workerIteration s pattern_index r t with
      | IterResult.exited => (s, pattern_index, [])
      | IterResult.panicked => (s, pattern_index, [])
      | IterResult.clicked _ s1 idx1 delay =>
          let res := runWorker s1 idx1 rest
          (res.1, res.2.1, delay :: res.2.2)

example :
    (runWorker
      { ClickerState.defaultState with is_running := true, click_mode := ClickMode.Pattern }
      0 [(0, 0), (0, 1), (0, 2), (0, 3)]).2.2 = [100, 200, 300, 100] := by decide

/-- Worker-local state of a spawned click thread: the handle kept in
`clicker_thread` is modelled as carrying the thread's local
`pattern_index`, initialised to 0 at spawn (src/main.rs line 267). -/
structure WorkerHandle where
  pattern_index : Nat
deriving DecidableEq, Repr

/-- Application state (src/main.rs lines 166-176).  The
`Arc<Mutex<ClickerState>>` is the `state` field; rendering-only fields are
kept so the record mirrors the source struct. -/
structure SeriousClickerApp where
  state : ClickerState
  clicker_thread : Option WorkerHandle
  configs : List ClickerConfig
  selected_config_index : Nat
  editing_config : ClickerConfig
  is_editing : Bool
  pattern_input : String
  status_message : String
  hotkey_active : Bool
deriving DecidableEq, Repr

/-- The comma-joined rendering of a pattern list used for `pattern_input`
(src/main.rs lines 184-188 and 230-234). -/
def patternInputOf (intervals : List Nat) : String :=
  String.intercalate "," (intervals.map toString)

/-- What the startup sees of the persisted config file. -/
inductive ConfigFile where
  | missing
  | unparsable
  | parsed (configs : List ClickerConfig)
deriving DecidableEq, Repr

/-- `SeriousClickerApp::load_configs` (src/main.rs lines 203-212): a missing
file yields the single default config; an unreadable or unparsable file is
an error; a parsed file is returned as-is, with no validation of its
contents. -/
def load_configs : ConfigFile → Except Unit (List ClickerConfig)
  | ConfigFile.missing => Except.ok [ClickerConfig.defaultConfig]
  | ConfigFile.unparsable => Except.error ()
  | ConfigFile.parsed configs => Except.ok configs

/-- `SeriousClickerApp::new` (src/main.rs lines 179-201): load the configs
(falling back to the single default on error), build the runtime state from
the first config (or the default when the list is empty). -/
def SeriousClickerApp.new (file : ConfigFile) : SeriousClickerApp :=
  let configs := match load_configs file with
    | Except.ok cs => cs
    | Except.error _ => [ClickerConfig.defaultConfig]
  let default_config := configs.headD ClickerConfig.defaultConfig
  { state := ClickerState.fromConfig default_config
    clicker_thread := none
    configs := configs
    selected_config_index := 0
    editing_config := default_config
    is_editing := false
    pattern_input := patternInputOf default_config.pattern_intervals
    status_message := "准备就绪"
    hotkey_active := false }

/-- `SeriousClickerApp::apply_config` (src/main.rs lines 221-235): under the
state lock, copy the five runtime config fields into the shared state and
refresh the `pattern_input` text.  No check of `is_running` is made and no
other state field is touched. -/
def SeriousClickerApp.apply_config (app : SeriousClickerApp)
    (config : ClickerConfig) : SeriousClickerApp :=
  { app with
    state := { app.state with
      click_mode := config.click_mode
      mouse_button := config.mouse_button
      fixed_interval_ms := config.fixed_interval_ms
      min_random_interval_ms := config.min_random_interval_ms
      max_random_interval_ms := config.max_random_interval_ms
      pattern_intervals := config.pattern_intervals }
    pattern_input := patternInputOf config.pattern_intervals }

/-- `SeriousClickerApp::start_clicker` (src/main.rs lines 250-319): under
the lock, return at once when already running; otherwise set
`is_running := true`, `start_time := now`, `click_count := 0`, update the
status message and spawn the worker thread with local `pattern_index = 0`.
The second component counts the worker threads spawned by this call. -/
def SeriousClickerApp.start_clicker (app : SeriousClickerApp) (now : Nat) :
    SeriousClickerApp × Nat :=
  if app.state.is_running then (app, 0)
  else
    ({ app with
        state := { app.state with
          is_running := true
          start_time := some now
          click_count := 0 }
        status_message := "连点器已启动"
        clicker_thread := some { pattern_index := 0 } },
     1)

/-- `SeriousClickerApp::stop_clicker` (src/main.rs lines 321-336): under the
lock, return at once when not running; otherwise set `is_running := false`,
update the status message, then take the worker handle and join the thread
(the worker observes the cleared flag at the top of its next iteration and
exits), leaving `clicker_thread` empty. -/
def SeriousClickerApp.stop_clicker (app : SeriousClickerApp) : SeriousClickerApp :=
  if app.state.is_running = false then app
  else
    { app with
      state := { app.state with is_running := false }
      status_message := "连点器已停止"
      clicker_thread := none }

/-- `SeriousClickerApp::toggle_clicker` (src/main.rs lines 237-248): read
`is_running` under the lock, then stop when running and start otherwise. -/
def SeriousClickerApp.toggle_clicker (app : SeriousClickerApp) (now : Nat) :
    SeriousClickerApp :=
  if app.state.is_running then app.stop_clicker
  else (app.start_clicker now).1

/-- Process-wide hotkey plumbing: the `HOTKEY_ACTIVE` flag (src/main.rs
line 145), the one-slot `HOTKEY_COMMAND` mailbox (line 148), and whether
the spawned listener thread is inside `listener.listen()` (lines 348-366,
the thread runs for the process lifetime once spawned). -/
structure HotkeySystem where
  hotkey_active_flag : Bool
  hotkey_command : Option Bool
  listener_alive : Bool
deriving DecidableEq, Repr

/-- `SeriousClickerApp::setup_hotkey` (src/main.rs lines 338-372): a no-op
when `hotkey_active` already holds; otherwise set `HOTKEY_ACTIVE := true`,
spawn the listener thread, mark the app flag and the status message. -/
def SeriousClickerApp.setup_hotkey (app : SeriousClickerApp)
    (sys : HotkeySystem) : SeriousClickerApp × HotkeySystem :=
  if app.hotkey_active then (app, sys)
  else
    ({ app with
        hotkey_active := true
        status_message := "热键已激活: F8 = 开始/停止" },
     { sys with hotkey_active_flag := true, listener_alive := true })

/-- The hotkey-menu disable branch (src/main.rs lines 440-444): set
`HOTKEY_ACTIVE := false`, clear the app's `hotkey_active` flag and update
the status message.  Nothing stops the listener thread. -/
def disable_hotkey (app : SeriousClickerApp) (sys : HotkeySystem) :
    SeriousClickerApp × HotkeySystem :=
  ({ app with hotkey_active := false, status_message := "热键已禁用" },
   { sys with hotkey_active_flag := false })

/-- The registered F8 key-down callback (src/main.rs lines 357-361): while
the listener thread is alive it writes `Some(true)` into the
`HOTKEY_COMMAND` mailbox, overwriting any pending value.  The callback does
not read `HOTKEY_ACTIVE` and is not conditioned on it. -/
def hotkey_keydown (sys : HotkeySystem) : HotkeySystem :=
  if sys.listener_alive then { sys with hotkey_command := some true }
  else sys

/-- The mailbox poll at the top of `eframe::App::update` (src/main.rs lines
399-407): when a command is pending, call `toggle_clicker` and clear the
slot.  The third component counts the `toggle_clicker` invocations made by
this tick. -/
def poll_hotkey_command (app : SeriousClickerApp) (sys : HotkeySystem)
    (now : Nat) : SeriousClickerApp × HotkeySystem × Nat :=
  match sys.hotkey_command with
  | some _ => (app.toggle_clicker now, { sys with hotkey_command := none }, 1)
  | none => (app, sys, 0)

/-- The config ComboBox selection handler (src/main.rs lines 497-508):
clicking entry `i` sets `selected_config_index := i` and applies that
config, with no check of `is_running`. -/
def select_config (app : SeriousClickerApp) (i : Nat) : SeriousClickerApp :=
  match app.configs.get? i with
  | some config =>
      SeriousClickerApp.apply_config { app with selected_config_index := i } config
  | none => app

/-- The Delete button handler (src/main.rs lines 516-530): guarded by the
configs list being non-empty; removes the selected entry (`Vec::remove`
panics, `none`, when the index is out of bounds), refills the list with the
default config when it became empty, clamps `selected_config_index` to
`len - 1`, and re-applies the now-selected config.  The final `save_configs`
only touches the file system. -/
def delete_selected_config (app : SeriousClickerApp) :
    Option SeriousClickerApp :=
  if app.configs = [] then some app
  else if app.selected_config_index < app.configs.length then
    let configs1 := app.configs.eraseIdx app.selected_config_index
    let configs2 := if configs1 = [] then [ClickerConfig.defaultConfig] else configs1
    let idx := min app.selected_config_index (configs2.length - 1)
    match configs2.get? idx with
    | some config =>
        some (SeriousClickerApp.apply_config
          { app with configs := configs2, selected_config_index := idx } config)
    | none => none
  else none

/-- A running app reached by starting the clicker from a fresh startup. -/
def c1RunningApp : SeriousClickerApp :=
  ((SeriousClickerApp.new ConfigFile.missing).start_clicker 5).1

/-- C1: after stop_clicker returns on a running app, is_running reads false
and the worker handle is cleared; a worker that observes is_running = false
at the top of an iteration exits without mutating the state (and a whole
run from such a state performs no mutation at all); stop_clicker on a
non-running app is a no-op. -/
theorem C1_stop_clicker_semantics (app : SeriousClickerApp)
    (s : ClickerState) (c r t : Nat) (oracles : List (Nat × Nat)) :
    (app.state.is_running = false → app.stop_clicker = app) ∧
    (app.state.is_running = true →
      app.stop_clicker.state.is_running = false ∧
      app.stop_clicker.clicker_thread = none ∧
      app.stop_clicker.state.click_count = app.state.click_count ∧
      app.stop_clicker.state.last_click_time = app.state.last_click_time) ∧
    (s.is_running = false →
      workerIteration s c r t = IterResult.exited ∧
      runWorker s c oracles = (s, c, [])) := by
  refine ⟨?_, ?_, ?_⟩
  · intro h
    simp [SeriousClickerApp.stop_clicker, h]
  · intro h
    simp [SeriousClickerApp.stop_clicker, h]
  · intro h
    refine ⟨by simp [workerIteration, h], ?_⟩
    cases oracles with
    | nil => rfl
    | cons p rest =>
        obtain ⟨r1, t1⟩ := p
        simp [runWorker, workerIteration, h]

/-- Closed instance of the stop_clicker semantics at a concrete running
app and a concrete stopped state. -/
theorem C1_stop_clicker_semantics_witness :
    c1RunningApp.stop_clicker.state.is_running = false ∧
    c1RunningApp.stop_clicker.clicker_thread = none ∧
    workerIteration c1RunningApp.stop_clicker.state 0 3 7 = IterResult.exited ∧
    runWorker c1RunningApp.stop_clicker.state 0 [(3, 7), (4, 8)] =
      (c1RunningApp.stop_clicker.state, 0, []) := by
  have h1 := C1_stop_clicker_semantics c1RunningApp c1RunningApp.stop_clicker.state
    0 3 7 [(3, 7), (4, 8)]
  have hrun : c1RunningApp.state.is_running = true := by decide
  have hstop : c1RunningApp.stop_clicker.state.is_running = false := (h1.2.1 hrun).1
  exact ⟨hstop, (h1.2.1 hrun).2.1, (h1.2.2 hstop).1, (h1.2.2 hstop).2⟩

/-- C2: start_clicker on a running app returns it unchanged and spawns no
worker (no click_count reset, no start_time change, no second worker); on a
stopped app it spawns exactly one worker, sets is_running, resets
click_count to 0 and sets start_time to now. -/
theorem C2_start_clicker_semantics (app : SeriousClickerApp) (now : Nat) :
    (app.state.is_running = true → app.start_clicker now = (app, 0)) ∧
    (app.state.is_running = false →
      (app.start_clicker now).2 = 1 ∧
      (app.start_clicker now).1.state.is_running = true ∧
      (app.start_clicker now).1.state.click_count = 0 ∧
      (app.start_clicker now).1.state.start_time = some now ∧
      (app.start_clicker now).1.clicker_thread = some { pattern_index := 0 }) := by
  refine ⟨?_, ?_⟩
  · intro h
    simp [SeriousClickerApp.start_clicker, h]
  · intro h
    simp [SeriousClickerApp.start_clicker, h]

/-- Closed instance of the start_clicker semantics: a double start leaves
the app unchanged and spawns nothing the second time. -/
theorem C2_start_clicker_semantics_witness :
    (c1RunningApp.start_clicker 9 = (c1RunningApp, 0)) ∧
    ((SeriousClickerApp.new ConfigFile.missing).start_clicker 5).2 = 1 ∧
    c1RunningApp.state.click_count = 0 ∧
    c1RunningApp.state.start_time = some 5 := by
  have h1 := (C2_start_clicker_semantics c1RunningApp 9).1 (by decide)
  have h2 := (C2_start_clicker_semantics (SeriousClickerApp.new ConfigFile.missing) 5).2
    (by decide)
  exact ⟨h1, h2.1, by decide, by decide⟩

/-- C3: in RandomInterval mode with min ≤ max, the computed delay exists
(no panic) and lies in the inclusive range [min, max]. -/
theorem C3_random_delay_in_range (s : ClickerState) (c r : Nat)
    (hmode : s.click_mode = ClickMode.RandomInterval)
    (hle : s.min_random_interval_ms ≤ s.max_random_interval_ms) :
    ∃ d, computeDelay s c r = some d ∧
      s.min_random_interval_ms ≤ d ∧ d ≤ s.max_random_interval_ms := by
  refine ⟨s.min_random_interval_ms +
    r % (s.max_random_interval_ms - s.min_random_interval_ms + 1), ?_, ?_, ?_⟩
  · simp [computeDelay, hmode, gen_range_inclusive, hle]
  · exact Nat.le_add_right _ _
  · have hr : r % (s.max_random_interval_ms - s.min_random_interval_ms + 1) <
        s.max_random_interval_ms - s.min_random_interval_ms + 1 :=
      Nat.mod_lt r (Nat.succ_pos _)
    omega

/-- Closed instance of the random-delay range property at the default
bounds 50 ≤ 200 and oracle 7. -/
theorem C3_random_delay_in_range_witness :
    ∃ d, computeDelay
        { ClickerState.defaultState with
          is_running := true, click_mode := ClickMode.RandomInterval } 0 7 = some d ∧
      50 ≤ d ∧ d ≤ 200 :=
  C3_random_delay_in_range
    { ClickerState.defaultState with
      is_running := true, click_mode := ClickMode.RandomInterval } 0 7 rfl (by decide)

/-- The concrete Pattern-mode demo state with sequence [100, 200, 300]. -/
def patternDemoState : ClickerState :=
  { ClickerState.defaultState with
    is_running := true, click_mode := ClickMode.Pattern }

/-- C4: in Pattern mode with a non-empty sequence and cursor c < len, one
worker iteration clicks with delay pattern_intervals[c] and advances the
local cursor to (c + 1) % len; on the demo sequence [100, 200, 300] the
4th computed delay equals the 1st. -/
theorem C4_pattern_delay_and_cursor (s : ClickerState) (c r t : Nat)
    (hrun : s.is_running = true)
    (hmode : s.click_mode = ClickMode.Pattern)
    (hc : c < s.pattern_intervals.length) :
    (workerIteration s c r t =
      IterResult.clicked s.mouse_button
        { s with click_count := s.click_count + 1, last_click_time := some t }
        ((c + 1) % s.pattern_intervals.length)
        (s.pattern_intervals.get ⟨c, hc⟩)) ∧
    ((runWorker patternDemoState 0 [(0, 0), (0, 1), (0, 2), (0, 3)]).2.2 =
      [100, 200, 300, 100]) ∧
    ((runWorker patternDemoState 0 [(0, 0), (0, 1), (0, 2), (0, 3)]).2.2.get? 3 =
      (runWorker patternDemoState 0 [(0, 0), (0, 1), (0, 2), (0, 3)]).2.2.get? 0) := by
  have hne : s.pattern_intervals ≠ [] := by
    intro hnil
    rw [hnil] at hc
    exact Nat.not_lt_zero c hc
  have hemp : s.pattern_intervals.isEmpty = false := by
    simpa [List.isEmpty_iff] using hne
  refine ⟨?_, by decide, by decide⟩
  simp [workerIteration, computeDelay, hmode, hrun, hemp, hne,
    List.getElem?_eq_getElem hc]

/-- Closed instance of the Pattern-mode step at the demo state with
cursor 0: delay 100 and next cursor 1. -/
theorem C4_pattern_delay_and_cursor_witness :
    workerIteration patternDemoState 0 4 9 =
      IterResult.clicked MouseButtonType.Left
        { patternDemoState with click_count := 1, last_click_time := some 9 }
        1 100 := by
  have h := (C4_pattern_delay_and_cursor patternDemoState 0 4 9 rfl rfl
    (by decide)).1
  simpa using h

/-- C5: in Pattern mode with an empty sequence, the policy returns the
fixed default delay 100 (no panic, not zero) and the iteration leaves the
local cursor unchanged. -/
theorem C5_empty_pattern_default (s : ClickerState) (c r t : Nat)
    (hrun : s.is_running = true)
    (hmode : s.click_mode = ClickMode.Pattern)
    (hemp : s.pattern_intervals = []) :
    computeDelay s c r = some 100 ∧
    workerIteration s c r t =
      IterResult.clicked s.mouse_button
        { s with click_count := s.click_count + 1, last_click_time := some t }
        c 100 := by
  constructor
  · simp [computeDelay, hmode, hemp]
  · simp [workerIteration, computeDelay, hmode, hemp, hrun]

/-- Closed instance of the empty-pattern fallback at a concrete state. -/
theorem C5_empty_pattern_default_witness :
    computeDelay { patternDemoState with pattern_intervals := [] } 2 4 = some 100 ∧
    workerIteration { patternDemoState with pattern_intervals := [] } 2 4 9 =
      IterResult.clicked MouseButtonType.Left
        { patternDemoState with
          pattern_intervals := [], click_count := 1, last_click_time := some 9 }
        2 100 := by
  have h := C5_empty_pattern_default
    { patternDemoState with pattern_intervals := [] } 2 4 9 rfl rfl rfl
  exact ⟨h.1, by simpa using h.2⟩

/-- A RandomInterval config whose bounds are inverted (min 200 > max 50),
as it may appear in a persisted configs.json. -/
def badRandomConfig : ClickerConfig :=
  { ClickerConfig.defaultConfig with
    name := "inverted"
    click_mode := ClickMode.RandomInterval
    min_random_interval_ms := 200
    max_random_interval_ms := 50 }

/-- The app started from a configs.json holding only the inverted config. -/
def badRandomApp : SeriousClickerApp :=
  ((SeriousClickerApp.new (ConfigFile.parsed [badRandomConfig])).start_clicker 0).1

/-- C6 counterexample: a persisted config with min 200 > max 50 passes
load_configs without validation, becomes the runtime state at startup, and
when the clicker starts, the worker's first delay computation hits the
empty-range panic branch of gen_range. -/
theorem C6_min_gt_max_reaches_policy :
    load_configs (ConfigFile.parsed [badRandomConfig]) =
      Except.ok [badRandomConfig] ∧
    badRandomApp.state.is_running = true ∧
    badRandomApp.state.click_mode = ClickMode.RandomInterval ∧
    badRandomApp.state.min_random_interval_ms = 200 ∧
    badRandomApp.state.max_random_interval_ms = 50 ∧
    computeDelay badRandomApp.state 0 3 = none ∧
    workerIteration badRandomApp.state 0 3 0 = IterResult.panicked :=
  ⟨rfl, by decide⟩

/-- C6 amended: load_configs returns parsed configs verbatim and
apply_config copies the random bounds verbatim — neither validates
min ≤ max — and in RandomInterval mode the Interval Policy hits the
gen_range panic branch exactly when max < min. -/
theorem C6_no_validation_min_max (configs : List ClickerConfig)
    (app : SeriousClickerApp) (config : ClickerConfig)
    (s : ClickerState) (c r : Nat) :
    load_configs (ConfigFile.parsed configs) = Except.ok configs ∧
    (app.apply_config config).state.min_random_interval_ms =
      config.min_random_interval_ms ∧
    (app.apply_config config).state.max_random_interval_ms =
      config.max_random_interval_ms ∧
    (s.click_mode = ClickMode.RandomInterval →
      (computeDelay s c r = none ↔
        s.max_random_interval_ms < s.min_random_interval_ms)) := by
  refine ⟨rfl, rfl, rfl, ?_⟩
  intro hmode
  by_cases hle : s.min_random_interval_ms ≤ s.max_random_interval_ms
  · simp only [computeDelay, hmode, gen_range_inclusive, if_pos hle]
    constructor
    · intro h
      exact absurd h (by simp)
    · intro h
      omega
  · simp only [computeDelay, hmode, gen_range_inclusive, if_neg hle]
    constructor
    · intro _
      omega
    · intro _
      trivial

/-- Closed instance of the missing min/max validation: the inverted bounds
make the policy panic. -/
theorem C6_no_validation_min_max_witness :
    computeDelay (ClickerState.fromConfig badRandomConfig) 0 3 = none := by
  have h := (C6_no_validation_min_max [] (SeriousClickerApp.new ConfigFile.missing)
    ClickerConfig.defaultConfig (ClickerState.fromConfig badRandomConfig) 0 3).2.2.2 rfl
  exact h.mpr (by decide)

/-- An app running the first of two configs, with a live worker handle. -/
def c7RunningApp : SeriousClickerApp :=
  ((SeriousClickerApp.new (ConfigFile.parsed
      [ClickerConfig.defaultConfig,
       { ClickerConfig.defaultConfig with
         name := "random", click_mode := ClickMode.RandomInterval }])).start_clicker 5).1

/-- C7 counterexample: while the worker is running (is_running = true and a
live handle), selecting the other config in the ComboBox applies it and
mutates click_mode — one of the five runtime config fields — with no
is_running guard anywhere on the path. -/
theorem C7_config_mutated_while_running :
    c7RunningApp.state.is_running = true ∧
    c7RunningApp.clicker_thread = some { pattern_index := 0 } ∧
    c7RunningApp.state.click_mode = ClickMode.FixedInterval ∧
    (select_config c7RunningApp 1).state.is_running = true ∧
    (select_config c7RunningApp 1).state.click_mode =
      ClickMode.RandomInterval := by decide

/-- C7 amended: apply_config swaps exactly the five runtime config fields
(plus the pattern_input display text) unconditionally — it neither checks
nor changes is_running, click_count, start_time, last_click_time or the
worker handle — while a clicking worker iteration mutates only click_count
and last_click_time, leaving the five config fields and is_running as they
were. -/
theorem C7_apply_config_unguarded (app : SeriousClickerApp)
    (config : ClickerConfig) (s s1 : ClickerState) (b : MouseButtonType)
    (c c1 d r t : Nat) :
    ((app.apply_config config).state.is_running = app.state.is_running ∧
     (app.apply_config config).state.click_count = app.state.click_count ∧
     (app.apply_config config).state.start_time = app.state.start_time ∧
     (app.apply_config config).state.last_click_time = app.state.last_click_time ∧
     (app.apply_config config).clicker_thread = app.clicker_thread ∧
     (app.apply_config config).state.click_mode = config.click_mode ∧
     (app.apply_config config).state.mouse_button = config.mouse_button ∧
     (app.apply_config config).state.fixed_interval_ms = config.fixed_interval_ms ∧
     (app.apply_config config).state.min_random_interval_ms =
       config.min_random_interval_ms ∧
     (app.apply_config config).state.max_random_interval_ms =
       config.max_random_interval_ms ∧
     (app.apply_config config).state.pattern_intervals =
       config.pattern_intervals) ∧
    (workerIteration s c r t = IterResult.clicked b s1 c1 d →
      s1.is_running = s.is_running ∧
      s1.click_mode = s.click_mode ∧
      s1.mouse_button = s.mouse_button ∧
      s1.fixed_interval_ms = s.fixed_interval_ms ∧
      s1.min_random_interval_ms = s.min_random_interval_ms ∧
      s1.max_random_interval_ms = s.max_random_interval_ms ∧
      s1.pattern_intervals = s.pattern_intervals ∧
      s1.start_time = s.start_time ∧
      s1.click_count = s.click_count + 1 ∧
      s1.last_click_time = some t) := by
  refine ⟨⟨rfl, rfl, rfl, rfl, rfl, rfl, rfl, rfl, rfl, rfl, rfl⟩, ?_⟩
  intro h
  by_cases hrun : s.is_running = false
  · simp [workerIteration, hrun] at h
  · cases hcd : computeDelay s c r with
    | none => simp [workerIteration, hrun, hcd] at h
    | some delay =>
        unfold workerIteration at h
        rw [if_neg hrun] at h
        simp only [hcd] at h
        rw [IterResult.clicked.injEq] at h
        obtain ⟨hb, hs1, hc1, hd⟩ := h
        rw [← hs1]
        simp

/-- Closed instance of the worker-mutation frame at a concrete fixed
interval state: a click changes only click_count and last_click_time. -/
theorem C7_apply_config_unguarded_witness :
    ({ ClickerState.defaultState with
        is_running := true, click_count := 1,
        last_click_time := some 9 } : ClickerState).click_count =
      ({ ClickerState.defaultState with is_running := true } :
        ClickerState).click_count + 1 ∧
    ({ ClickerState.defaultState with
        is_running := true, click_count := 1,
        last_click_time := some 9 } : ClickerState).pattern_intervals =
      ({ ClickerState.defaultState with is_running := true } :
        ClickerState).pattern_intervals := by
  have h := (C7_apply_config_unguarded (SeriousClickerApp.new ConfigFile.missing)
      ClickerConfig.defaultConfig
      { ClickerState.defaultState with is_running := true }
      { ClickerState.defaultState with
        is_running := true, click_count := 1, last_click_time := some 9 }
      MouseButtonType.Left 0 0 100 0 9).2 (by decide)
  exact ⟨h.2.2.2.2.2.2.2.2.1, h.2.2.2.2.2.2.1⟩

/-- C8: the hotkey mailbox is a one-slot overwrite cell — a second F8
trigger before consumption coalesces with the first (keydown is idempotent
and leaves a single pending Some true) — and each main-loop tick consumes
at most one command: when a command is pending the tick invokes
toggle_clicker exactly once and clears the slot to none, and when the slot
is empty it does nothing. -/
theorem C8_mailbox_one_slot (sys : HotkeySystem) (app : SeriousClickerApp)
    (now : Nat) :
    (hotkey_keydown (hotkey_keydown sys) = hotkey_keydown sys) ∧
    (sys.listener_alive = true →
      (hotkey_keydown sys).hotkey_command = some true) ∧
    ((poll_hotkey_command app sys now).2.2 ≤ 1) ∧
    (sys.hotkey_command ≠ none →
      poll_hotkey_command app sys now =
        (app.toggle_clicker now, { sys with hotkey_command := none }, 1)) ∧
    (sys.hotkey_command = none →
      poll_hotkey_command app sys now = (app, sys, 0)) := by
  refine ⟨?_, ?_, ?_, ?_, ?_⟩
  · by_cases h : sys.listener_alive = true
    · simp [hotkey_keydown, h]
    · simp [hotkey_keydown, h]
  · intro h
    simp [hotkey_keydown, h]
  · cases h : sys.hotkey_command with
    | none => simp [poll_hotkey_command, h]
    | some b => simp [poll_hotkey_command, h]
  · intro h
    cases hcmd : sys.hotkey_command with
    | none => exact absurd hcmd h
    | some b => simp [poll_hotkey_command, hcmd]
  · intro h
    simp [poll_hotkey_command, h]

/-- An alive hotkey system with one pending command in the mailbox. -/
def pendingSys : HotkeySystem :=
  { hotkey_active_flag := true, hotkey_command := some true,
    listener_alive := true }

/-- Closed instance of the mailbox semantics: double keydown coalesces and
one tick consumes the single command with exactly one toggle. -/
theorem C8_mailbox_one_slot_witness :
    hotkey_keydown (hotkey_keydown pendingSys) = hotkey_keydown pendingSys ∧
    (hotkey_keydown pendingSys).hotkey_command = some true ∧
    poll_hotkey_command (SeriousClickerApp.new ConfigFile.missing) pendingSys 4 =
      ((SeriousClickerApp.new ConfigFile.missing).toggle_clicker 4,
        { pendingSys with hotkey_command := none }, 1) := by
  have h := C8_mailbox_one_slot pendingSys (SeriousClickerApp.new ConfigFile.missing) 4
  exact ⟨h.1, h.2.1 rfl, h.2.2.2.1 (by decide)⟩

/-- The app/system pair after enabling the hotkey from a fresh start and
then disabling it again through the hotkey menu. -/
def c9AfterDisable : SeriousClickerApp × HotkeySystem :=
  let enabled := (SeriousClickerApp.new ConfigFile.missing).setup_hotkey
    { hotkey_active_flag := false, hotkey_command := none,
      listener_alive := false }
  disable_hotkey enabled.1 enabled.2

/-- C9: evaluation at the failing input.  After deactivation both the
shared HOTKEY_ACTIVE flag and the app's hotkey_active read false, yet the
listener thread is still alive, a subsequent F8 key-down still writes a
command into the mailbox, and the next main-loop tick still invokes
toggle_clicker (here starting the clicker): the deactivated bridge keeps
acting on triggers, because the registered callback never reads
HOTKEY_ACTIVE. -/
theorem C9_disabled_hotkey_still_toggles :
    c9AfterDisable.1.hotkey_active = false ∧
    c9AfterDisable.2.hotkey_active_flag = false ∧
    c9AfterDisable.2.listener_alive = true ∧
    (hotkey_keydown c9AfterDisable.2).hotkey_command = some true ∧
    (poll_hotkey_command c9AfterDisable.1 (hotkey_keydown c9AfterDisable.2)
      6).2.2 = 1 ∧
    (poll_hotkey_command c9AfterDisable.1 (hotkey_keydown c9AfterDisable.2)
      6).1.state.is_running = true := by decide

/-- C10: deleting the selected config from a non-empty list with a valid
selected index leaves a non-empty list, keeps selected_config_index a
valid index, and re-applies the now-selected config's five runtime fields
to the shared state. -/
theorem C10_delete_keeps_nonempty_valid (app : SeriousClickerApp)
    (hne : app.configs ≠ [])
    (hidx : app.selected_config_index < app.configs.length) :
    ∃ app1 config,
      delete_selected_config app = some app1 ∧
      app1.configs ≠ [] ∧
      app1.selected_config_index < app1.configs.length ∧
      app1.configs.get? app1.selected_config_index = some config ∧
      app1.state.click_mode = config.click_mode ∧
      app1.state.mouse_button = config.mouse_button ∧
      app1.state.fixed_interval_ms = config.fixed_interval_ms ∧
      app1.state.min_random_interval_ms = config.min_random_interval_ms ∧
      app1.state.max_random_interval_ms = config.max_random_interval_ms ∧
      app1.state.pattern_intervals = config.pattern_intervals := by
  set l2 := (if app.configs.eraseIdx app.selected_config_index = []
      then [ClickerConfig.defaultConfig]
      else app.configs.eraseIdx app.selected_config_index) with hl2
  have h2ne : l2 ≠ [] := by
    rw [hl2]
    split
    · simp
    · rename_i hf
      exact hf
  have h2pos : 0 < l2.length := List.length_pos.mpr h2ne
  have hlt : min app.selected_config_index (l2.length - 1) < l2.length :=
    Nat.lt_of_le_of_lt (Nat.min_le_right _ _) (Nat.sub_lt h2pos Nat.one_pos)
  have hget : l2.get? (min app.selected_config_index (l2.length - 1)) =
      some (l2.get ⟨min app.selected_config_index (l2.length - 1), hlt⟩) :=
    List.get?_eq_get hlt
  refine ⟨SeriousClickerApp.apply_config
      { app with
        configs := l2
        selected_config_index :=
          min app.selected_config_index (l2.length - 1) }
      (l2.get ⟨min app.selected_config_index (l2.length - 1), hlt⟩),
    l2.get ⟨min app.selected_config_index (l2.length - 1), hlt⟩,
    ?_, h2ne, hlt, hget, rfl, rfl, rfl, rfl, rfl, rfl⟩
  simp only [delete_selected_config, if_neg hne, if_pos hidx, ← hl2, hget]

/-- Closed instance of the delete invariants at the fresh one-config app:
deleting the only config refills the list with the default config. -/
theorem C10_delete_keeps_nonempty_valid_witness :
    ∃ app1 config,
      delete_selected_config (SeriousClickerApp.new ConfigFile.missing) =
        some app1 ∧
      app1.configs ≠ [] ∧
      app1.selected_config_index < app1.configs.length ∧
      app1.configs.get? app1.selected_config_index = some config ∧
      app1.state.click_mode = config.click_mode ∧
      app1.state.mouse_button = config.mouse_button ∧
      app1.state.fixed_interval_ms = config.fixed_interval_ms ∧
      app1.state.min_random_interval_ms = config.min_random_interval_ms ∧
      app1.state.max_random_interval_ms = config.max_random_interval_ms ∧
      app1.state.pattern_intervals = config.pattern_intervals :=
  C10_delete_keeps_nonempty_valid (SeriousClickerApp.new ConfigFile.missing)
    (by decide) (by decide)
